import Mathlib

set_option maxRecDepth 100000

/-!
Shallow embedding of the Murmur proxy Cloudflare Worker
(`src/proxy/src/index.ts`) and proofs about its request-verification and
relay logic.

Modelling conventions:
* Byte sequences (`ArrayBuffer`, `Uint8Array`) are `List Nat` with entries
  below 256.
* JavaScript strings are Lean `String`s; `charCodeAt` is modelled by the
  code point of the character, which agrees with the UTF-16 code unit on
  the basic multilingual plane (HTTP header values are byte strings, so
  this covers every reachable value).
* `TextEncoder.encode` is modelled by UTF-8 encoding (`utf8Bytes`).
* `crypto.subtle.digest("SHA-256", ...)` and HMAC-SHA256 are implemented
  concretely below (FIPS 180-4 / RFC 2104), so the verifier is fully
  executable.
* `Date.now`, header access and the body of the request are explicit
  parameters; the multipart parser provided by the runtime
  (`Request.formData`) and the outbound `fetch` are parameters of the
  functions that use them.
-/

/-- UTF-8 encoding of a single code point, as bytes. -/
def utf8Char (n : Nat) : List Nat :=
  if n < 128 then [n]
  else if n < 2048 then [192 + n / 64, 128 + n % 64]
  else if n < 65536 then [224 + n / 4096, 128 + n / 64 % 64, 128 + n % 64]
  else [240 + n / 262144, 128 + n / 4096 % 64, 128 + n / 64 % 64, 128 + n % 64]

/-- UTF-8 encoding of a string (the model of `TextEncoder.encode`). -/
def utf8Bytes (s : String) : List Nat :=
  s.data.foldr (fun c acc => utf8Char c.toNat ++ acc) []

/-- Big-endian byte representation of `n` on `k` bytes. -/
def natToBytesBE : Nat → Nat → List Nat
  | 0, _ => []
  | k + 1, n => natToBytesBE k (n / 256) ++ [n % 256]

/-- Right rotation of a 32-bit value (input assumed below `2 ^ 32`). -/
def rotr32 (n x : Nat) : Nat :=
  x / 2 ^ n + x % 2 ^ n * 2 ^ (32 - n)

/-- SHA-256 round constants (FIPS 180-4, in decimal). -/
def sha256K : List Nat :=
  [1116352408, 1899447441, 3049323471, 3921009573, 961987163, 1508970993,
   2453635748, 2870763221, 3624381080, 310598401, 607225278, 1426881987,
   1925078388, 2162078206, 2614888103, 3248222580, 3835390401, 4022224774,
   264347078, 604807628, 770255983, 1249150122, 1555081692, 1996064986,
   2554220882, 2821834349, 2952996808, 3210313671, 3336571891, 3584528711,
   113926993, 338241895, 666307205, 773529912, 1294757372, 1396182291,
   1695183700, 1986661051, 2177026350, 2456956037, 2730485921, 2820302411,
   3259730800, 3345764771, 3516065817, 3600352804, 4094571909, 275423344,
   430227734, 506948616, 659060556, 883997877, 958139571, 1322822218,
   1537002063, 1747873779, 1955562222, 2024104815, 2227730452, 2361852424,
   2428436474, 2756734187, 3204031479, 3329325298]

/-- SHA-256 initial hash value. -/
def sha256H0 : List Nat :=
  [1779033703, 3144134277, 1013904242, 2773480762, 1359893119, 2600822924,
   528734635, 1541459225]

/-- SHA-256 padding: append `0x80`, zeros, then the bit length on 8 bytes. -/
def sha256Pad (msg : List Nat) : List Nat :=
  msg ++ 128 :: List.replicate ((119 - msg.length % 64) % 64) 0
      ++ natToBytesBE 8 (msg.length * 8)

/-- Group bytes into big-endian 32-bit words. -/
def bytesToWords : List Nat → List Nat
  | a :: b :: c :: d :: rest =>
      (((a * 256 + b) * 256 + c) * 256 + d) :: bytesToWords rest
  | _ => []

/-- Group a word list into blocks of 16 words. -/
def wordBlocks : List Nat → List (List Nat)
  | w0 :: w1 :: w2 :: w3 :: w4 :: w5 :: w6 :: w7 :: w8 :: w9 :: w10 :: w11 ::
    w12 :: w13 :: w14 :: w15 :: rest =>
      [w0, w1, w2, w3, w4, w5, w6, w7, w8, w9, w10, w11, w12, w13, w14, w15]
        :: wordBlocks rest
  | _ => []

def bigSigma0 (x : Nat) : Nat := rotr32 2 x ^^^ rotr32 13 x ^^^ rotr32 22 x
def bigSigma1 (x : Nat) : Nat := rotr32 6 x ^^^ rotr32 11 x ^^^ rotr32 25 x
def smallSigma0 (x : Nat) : Nat := rotr32 7 x ^^^ rotr32 18 x ^^^ x / 2 ^ 3
def smallSigma1 (x : Nat) : Nat := rotr32 17 x ^^^ rotr32 19 x ^^^ x / 2 ^ 10

def shaCh (e f g : Nat) : Nat := e &&& f ^^^ (4294967295 ^^^ e) &&& g
def shaMaj (a b c : Nat) : Nat := a &&& b ^^^ a &&& c ^^^ b &&& c

/-- Extend a 16-word block by `fuel` schedule words. -/
def extendSchedule : Nat → List Nat → List Nat
  | 0, ws => ws
  | n + 1, ws =>
      let len := ws.length
      let w := (smallSigma1 (ws.getD (len - 2) 0) + ws.getD (len - 7) 0 +
                smallSigma0 (ws.getD (len - 15) 0) + ws.getD (len - 16) 0) % 2 ^ 32
      extendSchedule n (ws ++ [w])

/-- Full 64-entry message schedule of one block. -/
def schedule (block : List Nat) : List Nat := extendSchedule 48 block

/-- One SHA-256 round, acting on the working variables. -/
def compressStep (st : Nat × Nat × Nat × Nat × Nat × Nat × Nat × Nat)
    (kw : Nat × Nat) : Nat × Nat × Nat × Nat × Nat × Nat × Nat × Nat :=
  let (a, b, c, d, e, f, g, h) := st
  let t1 := (h + bigSigma1 e + shaCh e f g + kw.1 + kw.2) % 2 ^ 32
  let t2 := (bigSigma0 a + shaMaj a b c) % 2 ^ 32
  ((t1 + t2) % 2 ^ 32, a, b, c, (d + t1) % 2 ^ 32, e, f, g)

/-- Compress one 16-word block into the running hash. -/
def compressBlock (h : List Nat) (block : List Nat) : List Nat :=
  match h with
  | [h0, h1, h2, h3, h4, h5, h6, h7] =>
      let (a, b, c, d, e, f, g, hh) :=
        (sha256K.zip (schedule block)).foldl compressStep
          (h0, h1, h2, h3, h4, h5, h6, h7)
      [(h0 + a) % 2 ^ 32, (h1 + b) % 2 ^ 32, (h2 + c) % 2 ^ 32,
       (h3 + d) % 2 ^ 32, (h4 + e) % 2 ^ 32, (h5 + f) % 2 ^ 32,
       (h6 + g) % 2 ^ 32, (h7 + hh) % 2 ^ 32]
  | _ => h

/-- SHA-256 digest of a byte sequence, as 32 bytes. -/
def sha256Bytes (msg : List Nat) : List Nat :=
  ((wordBlocks (bytesToWords (sha256Pad msg))).foldl compressBlock
      sha256H0).foldr (fun w acc => natToBytesBE 4 w ++ acc) []

/-- Lowercase hexadecimal digit. -/
def hexDigitChar (n : Nat) : Char :=
  Char.ofNat (if n < 10 then 48 + n else 87 + n)

/-- Model of `b.toString(16).padStart(2, "0")` for a byte. -/
def byteToHex (b : Nat) : String :=
  String.mk [hexDigitChar (b / 16 % 16), hexDigitChar (b % 16)]

/-- Model of `Array.from(new Uint8Array(buf)).map(hex).join("")`. -/
def bytesToHex (bs : List Nat) : String :=
  String.join (bs.map byteToHex)

/-- SHA-256 digest as a lowercase hex string. -/
def sha256Hex (msg : List Nat) : String := bytesToHex (sha256Bytes msg)

/-- HMAC-SHA256 (RFC 2104) over bytes, the model of
`crypto.subtle.sign("HMAC", key, msg)` for an HMAC-SHA256 key. -/
def hmacSha256Bytes (key msg : List Nat) : List Nat :=
  let k0 := if 64 < key.length then sha256Bytes key else key
  let k := k0 ++ List.replicate (64 - k0.length) 0
  sha256Bytes (k.map (fun b => b ^^^ 92) ++
    sha256Bytes (k.map (fun b => b ^^^ 54) ++ msg))

/-- HMAC-SHA256 as a lowercase hex string. -/
def hmacSha256Hex (key msg : List Nat) : String :=
  bytesToHex (hmacSha256Bytes key msg)

/-! ## JavaScript semantics helpers -/

/-- JavaScript whitespace characters skipped by `parseInt`. -/
def isJsSpace (c : Char) : Bool :=
  c = ' ' || c = '\t' || c = '\n' || c = '\r' || c.toNat = 11 || c.toNat = 12 ||
  c.toNat = 160

/-- Value of a digit character in the given radix, if any. -/
def digitVal (radix : Nat) (c : Char) : Option Nat :=
  let n := c.toNat
  if 48 ≤ n ∧ n ≤ 57 ∧ n - 48 < radix then some (n - 48)
  else if radix = 16 ∧ 97 ≤ n ∧ n ≤ 102 then some (n - 87)
  else if radix = 16 ∧ 65 ≤ n ∧ n ≤ 70 then some (n - 55)
  else none

/-- Accumulate the longest digit prefix; `none` when no digit is consumed. -/
def parseDigits (radix : Nat) : List Char → Option Nat → Option Nat
  | [], acc => acc
  | c :: rest, acc =>
      match digitVal radix c with
      | some d => parseDigits radix rest (some (acc.getD 0 * radix + d))
      | none => acc

/-- Model of `parseInt(s, 10)`: leading whitespace, optional sign, longest
decimal digit prefix; `none` models `NaN`. -/
def jsParseInt10 (s : String) : Option Int :=
  match s.data.dropWhile isJsSpace with
  | '-' :: rest => (parseDigits 10 rest none).map (fun n => -(n : Int))
  | '+' :: rest => (parseDigits 10 rest none).map (fun n => (n : Int))
  | rest => (parseDigits 10 rest none).map (fun n => (n : Int))

/-- Model of `parseInt(s)` with no radix argument: as `jsParseInt10`, but a
prefix `0x`/`0X` after the sign switches to hexadecimal. -/
def jsParseIntAuto (s : String) : Option Int :=
  let cs := s.data.dropWhile isJsSpace
  let signRest : Bool × List Char :=
    match cs with
    | '-' :: r => (true, r)
    | '+' :: r => (false, r)
    | r => (false, r)
  let radixRest : Nat × List Char :=
    match signRest.2 with
    | '0' :: 'x' :: r => (16, r)
    | '0' :: 'X' :: r => (16, r)
    | r => (10, r)
  (parseDigits radixRest.1 radixRest.2 none).map
    (fun n => if signRest.1 then -(n : Int) else (n : Int))

/-- Check that `pre` is a prefix of `l` (over characters). -/
def charsPrefixOf : List Char → List Char → Bool
  | [], _ => true
  | _ :: _, [] => false
  | a :: as, b :: bs => a = b && charsPrefixOf as bs

/-- Check that `sub` occurs as a contiguous run in `l`. -/
def charsContains (sub : List Char) : List Char → Bool
  | [] => sub.isEmpty
  | c :: rest => charsPrefixOf sub (c :: rest) || charsContains sub rest

/-- Model of `s.includes(sub)`. -/
def jsIncludes (s sub : String) : Bool := charsContains sub.data s.data

/-- JavaScript truthiness of a nullable string: `null` and `""` are falsy. -/
def truthy : Option String → Bool
  | none => false
  | some s => !(s = "")

/-- Model of `s.charCodeAt(i)` for indices below the length (all uses here
are in bounds; characters are on the basic multilingual plane). -/
def charCodeAt (s : String) (i : Nat) : Nat :=
  (s.data.getD i (Char.ofNat 0)).toNat

/-! ## Data model of the worker -/

/-- Worker environment bindings (the logging-only `IP_HASH_SALT` is
omitted: it never influences any response). -/
structure Env where
  GROQ_API_KEY : String
  MURMUR_APP_SECRET : String

/-- Result type of `verifyHmacSignature` and `validateContentType`:
the source returns `{ valid: boolean; error?: string }`, with `error`
always set exactly when `valid` is false. -/
inductive VerifyResult where
  | valid : VerifyResult
  | invalid : String → VerifyResult
deriving DecidableEq

/-- An entry of parsed multipart form data: `FormData.get` yields either a
string field or a `File` (modelled by its raw bytes). -/
inductive FormValue where
  | str : String → FormValue
  | file : List Nat → FormValue
deriving DecidableEq

/-- Model of the runtime multipart parser `Request.formData()`: it reads
the boundary from the request headers and parses the body bytes; `none`
models the parser throwing. -/
def MultipartParser : Type :=
  (String → Option String) → List Nat → Option (List (String × FormValue))

/-- Model of `FormData.get`: first entry with the given name. -/
def formDataGet (form : List (String × FormValue)) (name : String) :
    Option FormValue :=
  (form.find? (fun p => p.1 == name)).map Prod.snd

/-- Inbound request: method, URL pathname, header lookup
(`Headers.get`, returning `null` as `none`) and raw body bytes. -/
structure WorkerRequest where
  method : String
  path : String
  headers : String → Option String
  body : List Nat

/-- Response produced by the worker: status, body (`none` for a null
body) and header list in insertion order. -/
structure WorkerResponse where
  status : Nat
  body : Option String
  headers : List (String × String)
deriving DecidableEq

/-- Outbound request issued to the upstream provider. -/
structure UpstreamRequest where
  url : String
  method : String
  headers : List (String × String)
  body : List Nat
deriving DecidableEq

/-- Upstream response as consumed by the worker: status, the value of its
Content-Type header, and the body text. -/
structure UpstreamResponse where
  status : Nat
  contentType : Option String
  text : String
deriving DecidableEq

/-! ## The verifier and the relay (translated from `src/proxy/src/index.ts`) -/

/-- Upstream endpoints proxied by the worker. -/
def groqEndpointWhisper : String :=
  "https://api.groq.com/openai/v1/audio/transcriptions"

def groqEndpointChat : String :=
  "https://api.groq.com/openai/v1/chat/completions"

/-- Max request size (10MB for audio files). -/
def MAX_REQUEST_SIZE : Int := 10 * 1024 * 1024

/-- Replay window of the verifier, in seconds. -/
def MAX_AGE_SECONDS : Int := 300

/-- Accumulator of the constant-time comparison loop of
`verifyHmacSignature`: OR of the XORs of all character pairs. -/
def mismatchAcc (signature expected : String) : Nat :=
  (List.range signature.length).foldl
    (fun acc i => acc ||| (charCodeAt signature i ^^^ charCodeAt expected i)) 0

/-- Translation of `verifyHmacSignature(request, bodyBytes, env, isMultipart)`.
`mp` stands for the runtime multipart parser, `now` for
`Math.floor(Date.now() / 1000)`, `headers` for `request.headers.get`. -/
def verifyHmacSignature (mp : MultipartParser) (now : Int)
    (headers : String → Option String) (bodyBytes : List Nat) (env : Env)
    (isMultipart : Bool) : VerifyResult :=
  let timestamp := headers "X-Murmur-Timestamp"
  let nonce := headers "X-Murmur-Nonce"
  let signature := headers "X-Murmur-Signature"
  if !(truthy timestamp && truthy nonce && truthy signature) then
    .invalid "Missing authentication headers"
  else
    let ts := timestamp.getD ""
    let non := nonce.getD ""
    let sig := signature.getD ""
    let fresh : Bool :=
      match jsParseInt10 ts with
      | none => false
      | some requestTime => decide ((now - requestTime).natAbs ≤ 300)
    if !fresh then .invalid "Request timestamp expired or invalid"
    else
      let bodyHashE : Except String String :=
        if isMultipart then
          match mp headers bodyBytes with
          | none => .error "Failed to parse multipart request"
          | some formData =>
              match formDataGet formData "file" with
              | some (FormValue.file audioBytes) =>
                  .ok (bytesToHex (sha256Bytes audioBytes))
              | _ => .error "Missing audio file in request"
        else
          .ok (bytesToHex (sha256Bytes bodyBytes))
      match bodyHashE with
      | .error e => .invalid e
      | .ok bodyHash =>
          let message := ts ++ ":" ++ non ++ ":" ++ bodyHash
          let expectedSignature :=
            hmacSha256Hex (utf8Bytes env.MURMUR_APP_SECRET) (utf8Bytes message)
          if sig.length ≠ expectedSignature.length then
            .invalid "Invalid signature"
          else if mismatchAcc sig expectedSignature ≠ 0 then
            .invalid "Invalid signature"
          else
            .valid

/-- Translation of `validateContentType(contentType, path)`. A `null` or
empty content type is falsy in the source. -/
def validateContentType (contentType : Option String) (path : String) :
    VerifyResult :=
  if !(truthy contentType) then .invalid "Missing Content-Type header"
  else
    let ct := contentType.getD ""
    if path = "/v1/audio/transcriptions" || path = "/whisper" then
      if !(jsIncludes ct "multipart/form-data") then
        .invalid "Invalid Content-Type for audio endpoint"
      else .valid
    else if path = "/v1/chat/completions" || path = "/chat" then
      if !(jsIncludes ct "application/json") then
        .invalid "Invalid Content-Type for chat endpoint"
      else .valid
    else .valid

/-- Translation of `corsHeaders()`. -/
def corsHeaders : List (String × String) :=
  [("Access-Control-Allow-Origin", "*"),
   ("Access-Control-Allow-Methods", "POST, OPTIONS"),
   ("Access-Control-Allow-Headers",
    "Content-Type, X-Murmur-Timestamp, X-Murmur-Nonce, X-Murmur-Signature"),
   ("Access-Control-Max-Age", "86400")]

/-- Translation of `jsonError(message, status)`; the body is
`JSON.stringify({error: message})` (all messages used are escape-free). -/
def jsonError (message : String) (status : Nat) : WorkerResponse :=
  { status := status,
    body := some ("\x7b\"error\":\"" ++ message ++ "\"\x7d"),
    headers := corsHeaders ++ [("Content-Type", "application/json")] }

/-- Size gate of the fetch handler, extracted verbatim:
`contentLength && parseInt(contentLength) > MAX_REQUEST_SIZE`
(`parseInt` of `NaN` compares false). -/
def sizeTooLarge (headers : String → Option String) : Bool :=
  match headers "Content-Length" with
  | none => false
  | some contentLength =>
      if contentLength = "" then false
      else
        match jsParseIntAuto contentLength with
        | none => false
        | some n => decide (MAX_REQUEST_SIZE < n)

/-- Route resolution of the fetch handler (lines picking `targetUrl`). -/
def resolveEndpoint (path : String) : Option String :=
  if path = "/v1/audio/transcriptions" || path = "/whisper" then
    some groqEndpointWhisper
  else if path = "/v1/chat/completions" || path = "/chat" then
    some groqEndpointChat
  else none

/-- Model of `x || "application/json"` on a nullable string. -/
def orJsonDefault : Option String → String
  | none => "application/json"
  | some ct => if ct = "" then "application/json" else ct

/-- Multipart flag of the fetch handler:
`contentType?.includes("multipart/form-data") ?? false`. -/
def requestIsMultipart (contentType : Option String) : Bool :=
  match contentType with
  | some ct => jsIncludes ct "multipart/form-data"
  | none => false

/-- Translation of the worker fetch handler. `upstream` models the
outbound `fetch` together with reading the response text: `Except.error`
models the `try` block throwing. `hashIP` and `console.error` are logging
only and influence no response, so they are omitted. -/
def handleFetch (mp : MultipartParser)
    (upstream : UpstreamRequest → Except Unit UpstreamResponse) (env : Env)
    (now : Int) (request : WorkerRequest) : WorkerResponse :=
  if request.method = "OPTIONS" then
    { status := 200, body := none, headers := corsHeaders }
  else if request.method ≠ "POST" then
    jsonError "Method not allowed" 405
  else if env.GROQ_API_KEY = "" then
    jsonError "Proxy not configured" 500
  else if sizeTooLarge request.headers then
    jsonError "Request too large" 413
  else
    match resolveEndpoint request.path with
    | none => jsonError "Unknown endpoint" 404
    | some targetUrl =>
        let contentType := request.headers "Content-Type"
        match validateContentType contentType request.path with
        | .invalid e => jsonError e 400
        | .valid =>
            let bodyBytes := request.body
            let isMultipart := requestIsMultipart contentType
            match verifyHmacSignature mp now request.headers bodyBytes env
                isMultipart with
            | .invalid _ => jsonError "Unauthorized" 401
            | .valid =>
                match upstream
                    { url := targetUrl, method := "POST",
                      headers :=
                        [("Authorization", "Bearer " ++ env.GROQ_API_KEY),
                         ("Content-Type", orJsonDefault contentType)],
                      body := bodyBytes } with
                | .error _ => jsonError "Proxy request failed" 502
                | .ok groqResponse =>
                    { status := groqResponse.status,
                      body := some groqResponse.text,
                      headers := corsHeaders ++
                        [("Content-Type",
                          orJsonDefault groqResponse.contentType)] }

/-- File bytes the verifier extracts from a multipart body, if any. -/
def multipartFileBytes (mp : MultipartParser)
    (headers : String → Option String) (body : List Nat) :
    Option (List Nat) :=
  match mp headers body with
  | none => none
  | some formData =>
      match formDataGet formData "file" with
      | some (FormValue.file audioBytes) => some audioBytes
      | _ => none

/-- Body hash as described by the spec: SHA-256 lowercase hex of the whole
raw body for non-multipart requests, of the extracted `file` field bytes
for multipart requests; `none` when no hash is obtained. -/
def bodyHashObtained (mp : MultipartParser) (hdrs : String → Option String)
    (body : List Nat) (isMultipart : Bool) : Option String :=
  if isMultipart then (multipartFileBytes mp hdrs body).map sha256Hex
  else some (sha256Hex body)

/-- Conditions on a request under which claim C1 asserts that
verification succeeds, following the words of the spec: the three
`X-Murmur` headers are present, the timestamp is fresh, the body hash is
obtained, and the received signature equals the lowercase-hex HMAC-SHA256
of `"{timestamp}:{nonce}:{bodyHashHex}"` under the shared secret. With
`strict` true, presence of a header additionally requires a non-empty
value (the amended reading forced by JavaScript truthiness). -/
def specVerifyConditions (strict : Bool) (mp : MultipartParser) (now : Int)
    (hdrs : String → Option String) (body : List Nat) (env : Env)
    (isMultipart : Bool) : Bool :=
  match hdrs "X-Murmur-Timestamp", hdrs "X-Murmur-Nonce",
      hdrs "X-Murmur-Signature" with
  | some ts, some non, some sg =>
      (!strict || (!(ts = "") && !(non = "") && !(sg = ""))) &&
      (match jsParseInt10 ts with
       | none => false
       | some t => decide ((now - t).natAbs ≤ 300)) &&
      (match bodyHashObtained mp hdrs body isMultipart with
       | none => false
       | some bh =>
           sg == hmacSha256Hex (utf8Bytes env.MURMUR_APP_SECRET)
               (utf8Bytes (ts ++ ":" ++ non ++ ":" ++ bh)))
  | _, _, _ => false

/-! ## Concrete sample data used by witnesses and counterexamples -/

/-- Environment with upstream credential "key" and shared secret "s". -/
def sampleEnv : Env := ⟨"key", "s"⟩

/-- The correct signature for timestamp "0", nonce "n" and body `{}`
under secret "s". -/
def sampleSig : String :=
  hmacSha256Hex (utf8Bytes "s")
    (utf8Bytes ("0:n:" ++ sha256Hex (utf8Bytes "\x7b\x7d")))

/-- Headers of a correctly signed JSON request. -/
def sampleHeaders : String → Option String := fun n =>
  if n = "X-Murmur-Timestamp" then some "0"
  else if n = "X-Murmur-Nonce" then some "n"
  else if n = "X-Murmur-Signature" then some sampleSig
  else if n = "Content-Type" then some "application/json"
  else none

/-- A correctly signed chat request with body `{}`. -/
def sampleChatRequest : WorkerRequest :=
  ⟨"POST", "/chat", sampleHeaders, utf8Bytes "\x7b\x7d"⟩

/-- A multipart parser that always throws. -/
def mpNone : MultipartParser := fun _ _ => none

/-- An upstream that always answers 200 with a fixed body. -/
def okUpstream : UpstreamRequest → Except Unit UpstreamResponse :=
  fun _ => .ok ⟨200, some "application/json", "ok"⟩

/-- An upstream whose call throws (network failure). -/
def errUpstream : UpstreamRequest → Except Unit UpstreamResponse :=
  fun _ => .error ()

/-- Correct signature for timestamp "0", EMPTY nonce and empty body under
secret "s" (used by the C1 counterexample). -/
def emptyNonceSig : String :=
  hmacSha256Hex (utf8Bytes "s") (utf8Bytes ("0::" ++ sha256Hex []))

/-- Headers where the nonce header is PRESENT but has the empty value,
and the signature is the correct HMAC for that empty nonce. -/
def emptyNonceHeaders : String → Option String := fun n =>
  if n = "X-Murmur-Timestamp" then some "0"
  else if n = "X-Murmur-Nonce" then some ""
  else if n = "X-Murmur-Signature" then some emptyNonceSig
  else none

/-- The sample signature with its first character altered. -/
def sigFirstDiff : String :=
  "2b8b0c2944954de7758b87a1b6b1a6e320cb6c09c248833e6d160967695d47de"

/-- The sample signature with its last character altered. -/
def sigLastDiff : String :=
  "1b8b0c2944954de7758b87a1b6b1a6e320cb6c09c248833e6d160967695d47df"

/-- Sample headers with the signature header replaced. -/
def headersWithSig (sg : String) : String → Option String := fun n =>
  if n = "X-Murmur-Signature" then some sg else sampleHeaders n

/-- A multipart parser returning a fixed file entry plus a body-dependent
metadata field. -/
def mpMeta : MultipartParser := fun _ body =>
  some [("meta", FormValue.str (bytesToHex body)),
        ("file", FormValue.file [1, 2, 3])]

/-- Sample headers with no nonce header at all. -/
def noNonceHeaders : String → Option String := fun n =>
  if n = "X-Murmur-Nonce" then none else sampleHeaders n

/-- Sample headers with a Content-Length header added. -/
def headersWithCL (cl : String) : String → Option String := fun n =>
  if n = "Content-Length" then some cl else sampleHeaders n

/-- Sample headers for a multipart request. -/
def sampleMpHeaders : String → Option String := fun n =>
  if n = "Content-Type" then some "multipart/form-data; boundary=x"
  else sampleHeaders n

/-- A correctly signed multipart request (the parsers used with it are
chosen per witness). -/
def sampleMpRequest : WorkerRequest :=
  ⟨"POST", "/whisper", sampleMpHeaders, [1, 2, 3]⟩

/-- A request declaring a Content-Length one byte over the limit. -/
def reqBig : WorkerRequest :=
  ⟨"POST", "/chat", headersWithCL "10485761", []⟩

/-- A GET request (method not allowed). -/
def reqGET : WorkerRequest :=
  ⟨"GET", "/chat", sampleHeaders, utf8Bytes "\x7b\x7d"⟩

/-- A POST chat request with no nonce header. -/
def reqNoNonce : WorkerRequest :=
  ⟨"POST", "/chat", noNonceHeaders, utf8Bytes "\x7b\x7d"⟩

/-- Sanity check against the FIPS 180-4 vector for the empty message. -/
theorem sha256Hex_empty :
    sha256Hex [] =
      "e3b0c44298fc1c149afbf4c8996fb92427ae41e4649b934ca495991b7852b855" := by
  decide

/-- Sanity check against the FIPS 180-4 vector for "abc". -/
theorem sha256Hex_abc :
    sha256Hex (utf8Bytes "abc") =
      "ba7816bf8f01cfea414140de5dae2223b00361a396177a9cb410ff61f20015ad" := by
  decide

/-- Sanity check against the classic HMAC-SHA256 test vector. -/
theorem hmacSha256Hex_fox :
    hmacSha256Hex (utf8Bytes "key")
        (utf8Bytes "The quick brown fox jumps over the lazy dog") =
      "f7bc83f430538424b13298e6aa6fb143ef4d59a14946175997479dbc2d1a3cd8" := by
  decide

/-! ## Helper lemmas about the constant-time comparison -/

theorem nat_or_eq_zero {a b : Nat} : a ||| b = 0 ↔ a = 0 ∧ b = 0 := by
  constructor
  · intro h
    constructor
    · apply Nat.eq_of_testBit_eq
      intro i
      have := congrArg (fun x => Nat.testBit x i) h
      simp [Nat.testBit_or] at this
      simp [this.1]
    · apply Nat.eq_of_testBit_eq
      intro i
      have := congrArg (fun x => Nat.testBit x i) h
      simp [Nat.testBit_or] at this
      simp [this.2]
  · rintro ⟨rfl, rfl⟩
    rfl

theorem char_eq_of_toNat_eq {c d : Char} (h : c.toNat = d.toNat) : c = d := by
  unfold Char.toNat at h
  exact Char.eq_of_val_eq (UInt32.eq_of_val_eq (Fin.ext h))

theorem foldl_or_acc_eq_zero (f : Nat → Nat) (l : List Nat) (a : Nat) :
    l.foldl (fun acc i => acc ||| f i) a = 0 ↔ a = 0 ∧ ∀ i ∈ l, f i = 0 := by
  induction l generalizing a with
  | nil => simp
  | cons x xs ih =>
      simp only [List.foldl_cons, ih, nat_or_eq_zero, List.mem_cons]
      constructor
      · rintro ⟨⟨ha, hx⟩, hxs⟩
        refine ⟨ha, ?_⟩
        rintro i (rfl | hi)
        · exact hx
        · exact hxs i hi
      · rintro ⟨ha, h⟩
        exact ⟨⟨ha, h x (Or.inl rfl)⟩, fun i hi => h i (Or.inr hi)⟩

theorem mismatchAcc_eq_zero_iff (s e : String) :
    mismatchAcc s e = 0 ↔
      ∀ i < s.length, charCodeAt s i = charCodeAt e i := by
  unfold mismatchAcc
  rw [foldl_or_acc_eq_zero]
  simp [List.mem_range, Nat.xor_eq_zero]

theorem string_eq_of_codes (s e : String) (hlen : s.length = e.length)
    (h : ∀ i < s.length, charCodeAt s i = charCodeAt e i) : s = e := by
  apply String.ext
  apply List.ext_getElem
  · exact hlen
  · intro i h1 h2
    apply char_eq_of_toNat_eq
    have hc := h i h1
    unfold charCodeAt at hc
    rwa [List.getD_eq_getElem?_getD, List.getD_eq_getElem?_getD,
      List.getElem?_eq_getElem h1, List.getElem?_eq_getElem h2] at hc

theorem mismatchAcc_zero_iff_eq (s e : String) (hlen : s.length = e.length) :
    mismatchAcc s e = 0 ↔ s = e := by
  rw [mismatchAcc_eq_zero_iff]
  constructor
  · intro h
    exact string_eq_of_codes s e hlen h
  · rintro rfl
    intro i _
    rfl

theorem mismatchAcc_self (s : String) : mismatchAcc s s = 0 :=
  (mismatchAcc_eq_zero_iff s s).mpr (fun _ _ => rfl)

/-! ## Staging lemmas about the verifier -/

theorem verify_missing_header (mp : MultipartParser) (now : Int)
    (hdrs : String → Option String) (body : List Nat) (env : Env)
    (isMultipart : Bool)
    (h : truthy (hdrs "X-Murmur-Timestamp") = false ∨
         truthy (hdrs "X-Murmur-Nonce") = false ∨
         truthy (hdrs "X-Murmur-Signature") = false) :
    verifyHmacSignature mp now hdrs body env isMultipart =
      .invalid "Missing authentication headers" := by
  unfold verifyHmacSignature
  rcases h with h | h | h <;> simp [h]

theorem verify_reaches_compare (mp : MultipartParser) (now : Int)
    (hdrs : String → Option String) (body : List Nat) (env : Env)
    (isMultipart : Bool) (ts non sg : String) (t : Int) (bh : String)
    (hts : hdrs "X-Murmur-Timestamp" = some ts)
    (hnon : hdrs "X-Murmur-Nonce" = some non)
    (hsg : hdrs "X-Murmur-Signature" = some sg)
    (h1 : ts ≠ "") (h2 : non ≠ "") (h3 : sg ≠ "")
    (hparse : jsParseInt10 ts = some t)
    (hfresh : (now - t).natAbs ≤ 300)
    (hbh : bodyHashObtained mp hdrs body isMultipart = some bh) :
    verifyHmacSignature mp now hdrs body env isMultipart =
      (if sg.length ≠ (hmacSha256Hex (utf8Bytes env.MURMUR_APP_SECRET)
            (utf8Bytes (ts ++ ":" ++ non ++ ":" ++ bh))).length then
        .invalid "Invalid signature"
      else if mismatchAcc sg (hmacSha256Hex (utf8Bytes env.MURMUR_APP_SECRET)
            (utf8Bytes (ts ++ ":" ++ non ++ ":" ++ bh))) ≠ 0 then
        .invalid "Invalid signature"
      else .valid) := by
  unfold verifyHmacSignature
  simp only [hts, hnon, hsg, truthy]
  cases isMultipart with
  | false =>
      simp only [bodyHashObtained, Bool.false_eq_true, if_false,
        Option.some.injEq] at hbh
      subst hbh
      simp [h1, h2, h3, hparse, hfresh, sha256Hex]
  | true =>
      cases hmp : mp hdrs body with
      | none => simp [bodyHashObtained, multipartFileBytes, hmp] at hbh
      | some formData =>
          cases hfd : formDataGet formData "file" with
          | none =>
              simp [bodyHashObtained, multipartFileBytes, hmp, hfd] at hbh
          | some v =>
              cases v with
              | str s =>
                  simp [bodyHashObtained, multipartFileBytes, hmp, hfd] at hbh
              | file audioBytes =>
                  simp [bodyHashObtained, multipartFileBytes, hmp, hfd] at hbh
                  subst hbh
                  simp [h1, h2, h3, hparse, hfresh, hmp, hfd, sha256Hex]

theorem verify_bodyHash_none (mp : MultipartParser) (now : Int)
    (hdrs : String → Option String) (body : List Nat) (env : Env)
    (isMultipart : Bool)
    (hbh : bodyHashObtained mp hdrs body isMultipart = none) :
    verifyHmacSignature mp now hdrs body env isMultipart ≠ .valid := by
  cases isMultipart with
  | false => simp [bodyHashObtained] at hbh
  | true =>
      unfold verifyHmacSignature
      cases hmp : mp hdrs body with
      | none =>
          simp only [hmp]
          split
          · simp
          · split <;> simp
      | some formData =>
          cases hfd : formDataGet formData "file" with
          | none =>
              simp only [hmp, hfd]
              split
              · simp
              · split <;> simp
          | some v =>
              cases v with
              | str s =>
                  simp only [hmp, hfd]
                  split
                  · simp
                  · split <;> simp
              | file audioBytes =>
                  simp [bodyHashObtained, multipartFileBytes, hmp, hfd] at hbh

theorem verify_timestamp_reject (mp : MultipartParser) (now : Int)
    (hdrs : String → Option String) (body : List Nat) (env : Env)
    (isMultipart : Bool) (ts non sg : String)
    (hts : hdrs "X-Murmur-Timestamp" = some ts)
    (hnon : hdrs "X-Murmur-Nonce" = some non)
    (hsg : hdrs "X-Murmur-Signature" = some sg)
    (h1 : ts ≠ "") (h2 : non ≠ "") (h3 : sg ≠ "")
    (hbad : jsParseInt10 ts = none ∨
      ∃ t, jsParseInt10 ts = some t ∧ 300 < (now - t).natAbs) :
    verifyHmacSignature mp now hdrs body env isMultipart =
      .invalid "Request timestamp expired or invalid" := by
  unfold verifyHmacSignature
  simp only [hts, hnon, hsg, truthy]
  rcases hbad with hp | ⟨t, hp, hgt⟩
  · simp [h1, h2, h3, hp]
  · have hnle : ¬((now - t).natAbs ≤ 300) := by omega
    simp [h1, h2, h3, hp, hnle]

/-- C1 (amended: header presence must be read as presence with a
non-empty value, since the source tests the three headers for JavaScript
truthiness). For every request, secret and current time,
`verifyHmacSignature` returns Valid if and only if the three
`X-Murmur-Timestamp`, `X-Murmur-Nonce`, `X-Murmur-Signature` headers are
present with non-empty values, the timestamp passes the freshness check,
the body hash is obtained (SHA-256 lowercase hex of the whole raw body
when not multipart, of the extracted `file` field bytes when multipart),
and the received signature equals the lowercase-hex HMAC-SHA256 of
`"{timestamp}:{nonce}:{bodyHashHex}"` keyed by the shared secret. -/
theorem C1_verify_valid_iff (mp : MultipartParser) (now : Int)
    (hdrs : String → Option String) (body : List Nat) (env : Env)
    (isMultipart : Bool) :
    verifyHmacSignature mp now hdrs body env isMultipart = .valid ↔
      specVerifyConditions true mp now hdrs body env isMultipart = true := by
  cases hts : hdrs "X-Murmur-Timestamp" with
  | none =>
      rw [verify_missing_header mp now hdrs body env isMultipart
        (Or.inl (by simp [truthy, hts]))]
      simp [specVerifyConditions, hts]
  | some ts =>
  cases hnon : hdrs "X-Murmur-Nonce" with
  | none =>
      rw [verify_missing_header mp now hdrs body env isMultipart
        (Or.inr (Or.inl (by simp [truthy, hnon])))]
      simp [specVerifyConditions, hts, hnon]
  | some non =>
  cases hsg : hdrs "X-Murmur-Signature" with
  | none =>
      rw [verify_missing_header mp now hdrs body env isMultipart
        (Or.inr (Or.inr (by simp [truthy, hsg])))]
      simp [specVerifyConditions, hts, hnon, hsg]
  | some sg =>
  by_cases h1 : ts = ""
  · rw [verify_missing_header mp now hdrs body env isMultipart
      (Or.inl (by simp [truthy, hts, h1]))]
    simp [specVerifyConditions, hts, hnon, hsg, h1]
  by_cases h2 : non = ""
  · rw [verify_missing_header mp now hdrs body env isMultipart
      (Or.inr (Or.inl (by simp [truthy, hnon, h2])))]
    simp [specVerifyConditions, hts, hnon, hsg, h2]
  by_cases h3 : sg = ""
  · rw [verify_missing_header mp now hdrs body env isMultipart
      (Or.inr (Or.inr (by simp [truthy, hsg, h3])))]
    simp [specVerifyConditions, hts, hnon, hsg, h3]
  cases hp : jsParseInt10 ts with
  | none =>
      rw [verify_timestamp_reject mp now hdrs body env isMultipart ts non sg
        hts hnon hsg h1 h2 h3 (Or.inl hp)]
      simp [specVerifyConditions, hts, hnon, hsg, hp]
  | some t =>
  by_cases hf : (now - t).natAbs ≤ 300
  case neg =>
      rw [verify_timestamp_reject mp now hdrs body env isMultipart ts non sg
        hts hnon hsg h1 h2 h3 (Or.inr ⟨t, hp, by omega⟩)]
      simp [specVerifyConditions, hts, hnon, hsg, hp, hf]
  case pos =>
  cases hbh : bodyHashObtained mp hdrs body isMultipart with
  | none =>
      have hne := verify_bodyHash_none mp now hdrs body env isMultipart hbh
      simp [specVerifyConditions, hts, hnon, hsg, hp, hbh, hne]
  | some bh =>
      rw [verify_reaches_compare mp now hdrs body env isMultipart ts non sg
        t bh hts hnon hsg h1 h2 h3 hp hf hbh]
      simp only [specVerifyConditions, hts, hnon, hsg, hbh, hp]
      set E := hmacSha256Hex (utf8Bytes env.MURMUR_APP_SECRET)
        (utf8Bytes (ts ++ ":" ++ non ++ ":" ++ bh)) with hE
      constructor
      · intro hv
        by_cases hlen : sg.length = E.length
        · by_cases hacc : mismatchAcc sg E = 0
          · have hseq := (mismatchAcc_zero_iff_eq sg E hlen).mp hacc
            have h3E : ¬E = "" := hseq ▸ h3
            simp [h1, h2, h3E, hf, hseq]
          · simp [hlen, hacc] at hv
        · simp [hlen] at hv
      · intro hc
        simp only [Bool.and_eq_true, Bool.or_eq_true, beq_iff_eq] at hc
        rw [hc.2]
        simp [mismatchAcc_self]

/-- C1 counterexample: a request whose nonce header is present (with the
empty string value) and whose signature equals the HMAC of the canonical
message `"0::{bodyHashHex}"`, so every condition of C1 as literally
stated holds, yet the verifier returns Invalid ("Missing authentication
headers"), because the source tests headers for truthiness and the empty
string is falsy. -/
theorem C1_counterexample :
    specVerifyConditions false mpNone 0 emptyNonceHeaders [] sampleEnv false
        = true ∧
      verifyHmacSignature mpNone 0 emptyNonceHeaders [] sampleEnv false
        ≠ .valid := by
  constructor
  · decide
  · decide

theorem multipartFileBytes_some {mp : MultipartParser}
    {hdrs : String → Option String} {body bs : List Nat}
    (h : multipartFileBytes mp hdrs body = some bs) :
    ∃ fd, mp hdrs body = some fd ∧
      formDataGet fd "file" = some (FormValue.file bs) := by
  unfold multipartFileBytes at h
  cases hmp : mp hdrs body with
  | none => rw [hmp] at h; simp at h
  | some fd =>
      rw [hmp] at h
      dsimp only at h
      cases hfd : formDataGet fd "file" with
      | none => rw [hfd] at h; simp at h
      | some v =>
          cases v with
          | str s => rw [hfd] at h; simp at h
          | file bs2 =>
              rw [hfd] at h
              simp only [Option.some.injEq] at h
              exact ⟨fd, rfl, by rw [hfd, h]⟩

/-- C3: two multipart requests that agree on the three X-Murmur headers,
the secret, the current time, and the raw bytes of the extracted `file`
field receive the same verification outcome — only the `file` field bytes
enter the signed body hash, so altering any other multipart field never
changes the result. -/
theorem C3_multipart_only_file_matters (mp : MultipartParser) (now : Int)
    (hdrs1 hdrs2 : String → Option String) (body1 body2 : List Nat)
    (env : Env) (bs : List Nat)
    (hts : hdrs1 "X-Murmur-Timestamp" = hdrs2 "X-Murmur-Timestamp")
    (hnon : hdrs1 "X-Murmur-Nonce" = hdrs2 "X-Murmur-Nonce")
    (hsg : hdrs1 "X-Murmur-Signature" = hdrs2 "X-Murmur-Signature")
    (hf1 : multipartFileBytes mp hdrs1 body1 = some bs)
    (hf2 : multipartFileBytes mp hdrs2 body2 = some bs) :
    verifyHmacSignature mp now hdrs1 body1 env true =
      verifyHmacSignature mp now hdrs2 body2 env true := by
  obtain ⟨fd1, hmp1, hfd1⟩ := multipartFileBytes_some hf1
  obtain ⟨fd2, hmp2, hfd2⟩ := multipartFileBytes_some hf2
  unfold verifyHmacSignature
  rw [hts, hnon, hsg, hmp1, hmp2]
  simp [hfd1, hfd2]

/-- Witness for C3: the metadata field of `mpMeta` differs between the
two bodies, the file bytes agree, and the outcomes coincide. -/
theorem C3_witness :
    verifyHmacSignature mpMeta 0 sampleHeaders [0] sampleEnv true =
      verifyHmacSignature mpMeta 0 sampleHeaders [1] sampleEnv true :=
  C3_multipart_only_file_matters mpMeta 0 sampleHeaders sampleHeaders
    [0] [1] sampleEnv [1, 2, 3] rfl rfl rfl (by decide) (by decide)

theorem verify_after_fresh (mp : MultipartParser) (now : Int)
    (hdrs : String → Option String) (body : List Nat) (env : Env)
    (isMultipart : Bool) (ts non sg : String) (t : Int)
    (hts : hdrs "X-Murmur-Timestamp" = some ts)
    (hnon : hdrs "X-Murmur-Nonce" = some non)
    (hsg : hdrs "X-Murmur-Signature" = some sg)
    (h1 : ts ≠ "") (h2 : non ≠ "") (h3 : sg ≠ "")
    (hp : jsParseInt10 ts = some t)
    (hf : (now - t).natAbs ≤ 300) :
    verifyHmacSignature mp now hdrs body env isMultipart =
      (match (if isMultipart then
          match mp hdrs body with
          | none => Except.error "Failed to parse multipart request"
          | some formData =>
              match formDataGet formData "file" with
              | some (FormValue.file audioBytes) =>
                  Except.ok (bytesToHex (sha256Bytes audioBytes))
              | _ => Except.error "Missing audio file in request"
        else (Except.ok (bytesToHex (sha256Bytes body)) :
          Except String String)) with
      | .error e => .invalid e
      | .ok bodyHash =>
          if sg.length ≠ (hmacSha256Hex (utf8Bytes env.MURMUR_APP_SECRET)
              (utf8Bytes (ts ++ ":" ++ non ++ ":" ++ bodyHash))).length then
            .invalid "Invalid signature"
          else if mismatchAcc sg (hmacSha256Hex
              (utf8Bytes env.MURMUR_APP_SECRET)
              (utf8Bytes (ts ++ ":" ++ non ++ ":" ++ bodyHash))) ≠ 0 then
            .invalid "Invalid signature"
          else .valid) := by
  unfold verifyHmacSignature
  simp [hts, hnon, hsg, truthy, h1, h2, h3, hp, hf]

/-- C4: when the three authentication headers are present with non-empty
values (so the freshness gate is reached), the verifier returns
Invalid ("Request timestamp expired or invalid") exactly when the
timestamp header fails to parse as an integer (JavaScript `parseInt`
with radix 10) or lies more than 300 seconds from the current time; the
boundary is inclusive, so a distance of exactly 300 seconds passes. -/
theorem C4_freshness_iff (mp : MultipartParser) (now : Int)
    (hdrs : String → Option String) (body : List Nat) (env : Env)
    (isMultipart : Bool) (ts non sg : String)
    (hts : hdrs "X-Murmur-Timestamp" = some ts)
    (hnon : hdrs "X-Murmur-Nonce" = some non)
    (hsg : hdrs "X-Murmur-Signature" = some sg)
    (h1 : ts ≠ "") (h2 : non ≠ "") (h3 : sg ≠ "") :
    verifyHmacSignature mp now hdrs body env isMultipart =
        .invalid "Request timestamp expired or invalid" ↔
      (jsParseInt10 ts = none ∨
        ∃ t, jsParseInt10 ts = some t ∧ 300 < (now - t).natAbs) := by
  constructor
  · intro hv
    by_contra hno
    push_neg at hno
    obtain ⟨hpn, hfr⟩ := hno
    cases hp : jsParseInt10 ts with
    | none => exact hpn hp
    | some t =>
        have hf : (now - t).natAbs ≤ 300 := by
          have := hfr t hp
          omega
        rw [verify_after_fresh mp now hdrs body env isMultipart ts non sg t
          hts hnon hsg h1 h2 h3 hp hf] at hv
        cases isMultipart with
        | false =>
            simp only [Bool.false_eq_true, if_false] at hv
            split at hv
            · simp_all
            · split at hv <;> simp_all
        | true =>
            simp only [if_true] at hv
            cases hmp : mp hdrs body with
            | none => rw [hmp] at hv; simp_all
            | some formData =>
                rw [hmp] at hv
                dsimp only at hv
                cases hfd : formDataGet formData "file" with
                | none => rw [hfd] at hv; simp_all
                | some v =>
                    cases v with
                    | str s => rw [hfd] at hv; simp_all
                    | file audioBytes =>
                        rw [hfd] at hv
                        dsimp only at hv
                        split at hv
                        · simp_all
                        · split at hv <;> simp_all
  · intro hbad
    exact verify_timestamp_reject mp now hdrs body env isMultipart ts non sg
      hts hnon hsg h1 h2 h3 hbad

/-- Witness for C4: with the sample request (timestamp "0"), the verifier
rejects with the timestamp reason at now = 301 and passes the freshness
gate at now = 300 (failing later, with a different reason, only if at
all). -/
theorem C4_freshness_iff_witness :
    verifyHmacSignature mpNone 301 sampleHeaders (utf8Bytes "\x7b\x7d")
        sampleEnv false = .invalid "Request timestamp expired or invalid" ∧
      verifyHmacSignature mpNone 300 sampleHeaders (utf8Bytes "\x7b\x7d")
        sampleEnv false ≠ .invalid "Request timestamp expired or invalid" := by
  constructor
  · exact (C4_freshness_iff mpNone 301 sampleHeaders (utf8Bytes "\x7b\x7d")
      sampleEnv false "0" "n" sampleSig rfl rfl rfl (by decide) (by decide)
      (by decide)).mpr (Or.inr ⟨0, by decide, by decide⟩)
  · intro h
    have hc := (C4_freshness_iff mpNone 300 sampleHeaders
      (utf8Bytes "\x7b\x7d") sampleEnv false "0" "n" sampleSig rfl rfl rfl
      (by decide) (by decide) (by decide)).mp h
    rcases hc with hc | ⟨t, ht, hgt⟩
    · exact absurd hc (by decide)
    · have h0 : jsParseInt10 "0" = some 0 := by decide
      rw [h0] at ht
      have h0t := Option.some.inj ht
      omega

/-- C5: once the verifier reaches the signature comparison (headers
present and non-empty, timestamp fresh, body hash `bh` obtained), it
rejects on length mismatch first; with equal lengths the XOR accumulator
over all character pairs is zero exactly when every position agrees, and
the result is Invalid ("Invalid signature") exactly when the received
signature differs from the expected one — in particular for a first-byte
or a last-byte difference. -/
theorem C5_constant_time_compare (mp : MultipartParser) (now : Int)
    (hdrs : String → Option String) (body : List Nat) (env : Env)
    (isMultipart : Bool) (ts non sg : String) (t : Int) (bh : String)
    (hts : hdrs "X-Murmur-Timestamp" = some ts)
    (hnon : hdrs "X-Murmur-Nonce" = some non)
    (hsg : hdrs "X-Murmur-Signature" = some sg)
    (h1 : ts ≠ "") (h2 : non ≠ "") (h3 : sg ≠ "")
    (hp : jsParseInt10 ts = some t)
    (hf : (now - t).natAbs ≤ 300)
    (hbh : bodyHashObtained mp hdrs body isMultipart = some bh) :
    (sg.length ≠ (hmacSha256Hex (utf8Bytes env.MURMUR_APP_SECRET)
        (utf8Bytes (ts ++ ":" ++ non ++ ":" ++ bh))).length →
      verifyHmacSignature mp now hdrs body env isMultipart =
        .invalid "Invalid signature") ∧
    (mismatchAcc sg (hmacSha256Hex (utf8Bytes env.MURMUR_APP_SECRET)
        (utf8Bytes (ts ++ ":" ++ non ++ ":" ++ bh))) = 0 ↔
      ∀ i < sg.length, charCodeAt sg i =
        charCodeAt (hmacSha256Hex (utf8Bytes env.MURMUR_APP_SECRET)
          (utf8Bytes (ts ++ ":" ++ non ++ ":" ++ bh))) i) ∧
    (sg.length = (hmacSha256Hex (utf8Bytes env.MURMUR_APP_SECRET)
        (utf8Bytes (ts ++ ":" ++ non ++ ":" ++ bh))).length →
      (verifyHmacSignature mp now hdrs body env isMultipart = .valid ↔
        sg = hmacSha256Hex (utf8Bytes env.MURMUR_APP_SECRET)
          (utf8Bytes (ts ++ ":" ++ non ++ ":" ++ bh))) ∧
      (verifyHmacSignature mp now hdrs body env isMultipart =
          .invalid "Invalid signature" ↔
        sg ≠ hmacSha256Hex (utf8Bytes env.MURMUR_APP_SECRET)
          (utf8Bytes (ts ++ ":" ++ non ++ ":" ++ bh)))) := by
  rw [verify_reaches_compare mp now hdrs body env isMultipart ts non sg t bh
    hts hnon hsg h1 h2 h3 hp hf hbh]
  set E := hmacSha256Hex (utf8Bytes env.MURMUR_APP_SECRET)
    (utf8Bytes (ts ++ ":" ++ non ++ ":" ++ bh)) with hE
  refine ⟨fun hlen => by simp [hlen], mismatchAcc_eq_zero_iff sg E,
    fun hlen => ?_⟩
  constructor
  · constructor
    · intro hv
      by_cases hacc : mismatchAcc sg E = 0
      · exact (mismatchAcc_zero_iff_eq sg E hlen).mp hacc
      · simp [hlen, hacc] at hv
    · intro hseq
      rw [hseq]
      simp [mismatchAcc_self]
  · constructor
    · intro hv hseq
      rw [hseq] at hv
      simp [mismatchAcc_self] at hv
    · intro hsne
      have hacc : mismatchAcc sg E ≠ 0 :=
        fun h => hsne ((mismatchAcc_zero_iff_eq sg E hlen).mp h)
      simp [hlen, hacc]

/-- Witness for C5: against the sample request, a received signature
differing from the expected one only in the first character, and one
differing only in the last character, are both classified Invalid. -/
theorem C5_constant_time_compare_witness :
    verifyHmacSignature mpNone 0 (headersWithSig sigFirstDiff)
        (utf8Bytes "\x7b\x7d") sampleEnv false =
      .invalid "Invalid signature" ∧
    verifyHmacSignature mpNone 0 (headersWithSig sigLastDiff)
        (utf8Bytes "\x7b\x7d") sampleEnv false =
      .invalid "Invalid signature" := by
  constructor
  · exact (((C5_constant_time_compare mpNone 0 (headersWithSig sigFirstDiff)
      (utf8Bytes "\x7b\x7d") sampleEnv false "0" "n" sigFirstDiff 0
      (sha256Hex (utf8Bytes "\x7b\x7d")) rfl rfl rfl (by decide) (by decide)
      (by decide) (by decide) (by decide) (by decide)).2.2
      (by decide)).2).mpr (by decide)
  · exact (((C5_constant_time_compare mpNone 0 (headersWithSig sigLastDiff)
      (utf8Bytes "\x7b\x7d") sampleEnv false "0" "n" sigLastDiff 0
      (sha256Hex (utf8Bytes "\x7b\x7d")) rfl rfl rfl (by decide) (by decide)
      (by decide) (by decide) (by decide) (by decide)).2.2
      (by decide)).2).mpr (by decide)

theorem validate_valid_ct_nonempty (ct p : String)
    (h : validateContentType (some ct) p = .valid) : ct ≠ "" := by
  intro he
  subst he
  simp [validateContentType, truthy] at h

theorem handleFetch_gates_passed (mp : MultipartParser)
    (f : UpstreamRequest → Except Unit UpstreamResponse) (env : Env)
    (now : Int) (req : WorkerRequest) (targetUrl ct : String)
    (hm : req.method = "POST") (hk : env.GROQ_API_KEY ≠ "")
    (hs : sizeTooLarge req.headers = false)
    (hr : resolveEndpoint req.path = some targetUrl)
    (hct : req.headers "Content-Type" = some ct)
    (hv : validateContentType (some ct) req.path = .valid)
    (hsig : verifyHmacSignature mp now req.headers req.body env
      (requestIsMultipart (some ct)) = .valid) :
    handleFetch mp f env now req =
      (match f { url := targetUrl, method := "POST",
                 headers := [("Authorization",
                              "Bearer " ++ env.GROQ_API_KEY),
                             ("Content-Type", ct)],
                 body := req.body } with
      | .error _ => jsonError "Proxy request failed" 502
      | .ok r =>
          { status := r.status, body := some r.text,
            headers := corsHeaders ++
              [("Content-Type", orJsonDefault r.contentType)] }) := by
  have hcne := validate_valid_ct_nonempty ct req.path hv
  unfold handleFetch
  simp [hm, hk, hs, hr, hct, hv, hsig, orJsonDefault, hcne]

/-- C6: when every gate passes, the outbound upstream request is a POST
to the resolved upstream URL whose body is exactly the inbound raw body
bytes and whose header set is exactly the Authorization bearer header
built from the server credential plus the original Content-Type — no
other inbound header is forwarded; the response is then built from the
upstream answer alone. -/
theorem C6_forwarding_exact (mp : MultipartParser)
    (f : UpstreamRequest → Except Unit UpstreamResponse) (env : Env)
    (now : Int) (req : WorkerRequest) (targetUrl ct : String)
    (hm : req.method = "POST") (hk : env.GROQ_API_KEY ≠ "")
    (hs : sizeTooLarge req.headers = false)
    (hr : resolveEndpoint req.path = some targetUrl)
    (hct : req.headers "Content-Type" = some ct)
    (hv : validateContentType (some ct) req.path = .valid)
    (hsig : verifyHmacSignature mp now req.headers req.body env
      (requestIsMultipart (some ct)) = .valid) :
    handleFetch mp f env now req =
      (match f { url := targetUrl, method := "POST",
                 headers := [("Authorization",
                              "Bearer " ++ env.GROQ_API_KEY),
                             ("Content-Type", ct)],
                 body := req.body } with
      | .error _ => jsonError "Proxy request failed" 502
      | .ok r =>
          { status := r.status, body := some r.text,
            headers := corsHeaders ++
              [("Content-Type", orJsonDefault r.contentType)] }) :=
  handleFetch_gates_passed mp f env now req targetUrl ct
    hm hk hs hr hct hv hsig

/-- Witness for C6: the sample signed chat request forwarded through a
fixed upstream. -/
theorem C6_forwarding_exact_witness :
    handleFetch mpNone okUpstream sampleEnv 0 sampleChatRequest =
      { status := 200, body := some "ok",
        headers := corsHeaders ++
          [("Content-Type", "application/json")] } := by
  rw [C6_forwarding_exact mpNone okUpstream sampleEnv 0 sampleChatRequest
    groqEndpointChat "application/json" rfl (by decide) (by decide)
    (by decide) (by decide) (by decide) (by decide)]
  decide

/-- C7: every response of the fetch handler carries the four CORS
headers (its header list extends `corsHeaders`), and an OPTIONS request
bypasses all gating, returning status 200 with a null body and exactly
the CORS headers, whatever the rest of the request, the environment, the
parser and the upstream are. -/
theorem C7_cors_everywhere (mp : MultipartParser)
    (f : UpstreamRequest → Except Unit UpstreamResponse) (env : Env)
    (now : Int) (req : WorkerRequest) :
    (∃ rest, (handleFetch mp f env now req).headers =
      corsHeaders ++ rest) ∧
    handleFetch mp f env now { req with method := "OPTIONS" } =
      { status := 200, body := none, headers := corsHeaders } := by
  constructor
  · unfold handleFetch
    dsimp only
    repeat' split
    all_goals first
      | exact ⟨[], rfl⟩
      | exact ⟨[("Content-Type", "application/json")], rfl⟩
      | exact ⟨_, rfl⟩
  · rfl

/-- C8: if every gate passes and the outbound call to the upstream
throws, the handler answers 502 with body error "Proxy request failed"
instead of propagating the fault. -/
theorem C8_upstream_failure_502 (mp : MultipartParser)
    (f : UpstreamRequest → Except Unit UpstreamResponse) (env : Env)
    (now : Int) (req : WorkerRequest) (targetUrl ct : String)
    (hm : req.method = "POST") (hk : env.GROQ_API_KEY ≠ "")
    (hs : sizeTooLarge req.headers = false)
    (hr : resolveEndpoint req.path = some targetUrl)
    (hct : req.headers "Content-Type" = some ct)
    (hv : validateContentType (some ct) req.path = .valid)
    (hsig : verifyHmacSignature mp now req.headers req.body env
      (requestIsMultipart (some ct)) = .valid)
    (hup : f { url := targetUrl, method := "POST",
               headers := [("Authorization",
                            "Bearer " ++ env.GROQ_API_KEY),
                           ("Content-Type", ct)],
               body := req.body } = .error ()) :
    handleFetch mp f env now req = jsonError "Proxy request failed" 502 := by
  rw [handleFetch_gates_passed mp f env now req targetUrl ct
    hm hk hs hr hct hv hsig, hup]

/-- Witness for C8: the sample signed chat request with an upstream whose
call throws. -/
theorem C8_upstream_failure_502_witness :
    handleFetch mpNone errUpstream sampleEnv 0 sampleChatRequest =
      jsonError "Proxy request failed" 502 :=
  C8_upstream_failure_502 mpNone errUpstream sampleEnv 0 sampleChatRequest
    groqEndpointChat "application/json" rfl (by decide) (by decide)
    (by decide) (by decide) (by decide) (by decide) rfl

/-- C9: when the multipart body cannot be parsed (the runtime parser
throws), the verifier catches the failure and returns
Invalid ("Failed to parse multipart request") — here stated once the
parse stage is reached — and at the relay level any such request (gates
before the verifier passing, multipart content type, parser throwing) is
answered with the generic 401 Unauthorized, never an unhandled fault or
5xx. -/
theorem C9_multipart_parse_failure (mp : MultipartParser) (now : Int)
    (hdrs : String → Option String) (body : List Nat) (env : Env)
    (ts non sg : String) (t : Int)
    (hts : hdrs "X-Murmur-Timestamp" = some ts)
    (hnon : hdrs "X-Murmur-Nonce" = some non)
    (hsg : hdrs "X-Murmur-Signature" = some sg)
    (h1 : ts ≠ "") (h2 : non ≠ "") (h3 : sg ≠ "")
    (hp : jsParseInt10 ts = some t)
    (hf : (now - t).natAbs ≤ 300)
    (hmp : mp hdrs body = none) :
    verifyHmacSignature mp now hdrs body env true =
        .invalid "Failed to parse multipart request" ∧
      ∀ (f : UpstreamRequest → Except Unit UpstreamResponse)
        (req : WorkerRequest) (targetUrl ct : String),
        req.method = "POST" → env.GROQ_API_KEY ≠ "" →
        sizeTooLarge req.headers = false →
        resolveEndpoint req.path = some targetUrl →
        req.headers "Content-Type" = some ct →
        validateContentType (some ct) req.path = .valid →
        requestIsMultipart (some ct) = true →
        mp req.headers req.body = none →
        handleFetch mp f env now req = jsonError "Unauthorized" 401 := by
  constructor
  · rw [verify_after_fresh mp now hdrs body env true ts non sg t
      hts hnon hsg h1 h2 h3 hp hf, hmp]
    rfl
  · intro f req targetUrl ct hm hk hs hr hct hv hmul hmp2
    have hbh : bodyHashObtained mp req.headers req.body true = none := by
      simp [bodyHashObtained, multipartFileBytes, hmp2]
    have hnv := verify_bodyHash_none mp now req.headers req.body env true hbh
    unfold handleFetch
    cases hval : verifyHmacSignature mp now req.headers req.body env
        (requestIsMultipart (some ct)) with
    | valid => rw [hmul] at hval; exact absurd hval hnv
    | invalid e =>
        simp [hm, hk, hs, hr, hct, hv, hval]

/-- Witness for C9: a signed multipart request whose parser throws is
rejected by the verifier with the parse reason and answered 401 by the
relay. -/
theorem C9_multipart_parse_failure_witness :
    verifyHmacSignature mpNone 0 sampleMpHeaders [1, 2, 3] sampleEnv true =
        .invalid "Failed to parse multipart request" ∧
      handleFetch mpNone okUpstream sampleEnv 0 sampleMpRequest =
        jsonError "Unauthorized" 401 := by
  have h := C9_multipart_parse_failure mpNone 0 sampleMpHeaders [1, 2, 3]
    sampleEnv "0" "n" sampleSig 0 rfl rfl rfl (by decide) (by decide)
    (by decide) (by decide) (by decide) rfl
  exact ⟨h.1, h.2 okUpstream sampleMpRequest groqEndpointWhisper
    "multipart/form-data; boundary=x" rfl (by decide) (by decide)
    (by decide) (by decide) (by decide) (by decide) rfl⟩

/-- C10: the size gate triggers exactly when a Content-Length header is
present and JavaScript parseInt of its value yields a number strictly
greater than 10485760; when it triggers (and the method and credential
gates pass) the handler answers 413 "Request too large"; a request with
an absent Content-Length, a non-numeric one (parseInt yields NaN), or a
declared length of exactly 10485760 passes the gate. -/
theorem C10_size_gate (mp : MultipartParser)
    (f : UpstreamRequest → Except Unit UpstreamResponse) (env : Env)
    (now : Int) (req : WorkerRequest) :
    (sizeTooLarge req.headers = true ↔
      ∃ s n, req.headers "Content-Length" = some s ∧
        jsParseIntAuto s = some n ∧ 10485760 < n) ∧
    (req.method = "POST" → env.GROQ_API_KEY ≠ "" →
      sizeTooLarge req.headers = true →
      handleFetch mp f env now req = jsonError "Request too large" 413) ∧
    (req.headers "Content-Length" = none →
      sizeTooLarge req.headers = false) ∧
    (∀ s, req.headers "Content-Length" = some s → jsParseIntAuto s = none →
      sizeTooLarge req.headers = false) ∧
    (∀ s, req.headers "Content-Length" = some s →
      jsParseIntAuto s = some 10485760 →
      sizeTooLarge req.headers = false) := by
  have hmax : MAX_REQUEST_SIZE = 10485760 := by norm_num [MAX_REQUEST_SIZE]
  refine ⟨?_, ?_, ?_, ?_, ?_⟩
  · unfold sizeTooLarge
    cases hcl : req.headers "Content-Length" with
    | none => simp
    | some s =>
        by_cases he : s = ""
        · subst he
          simp [show jsParseIntAuto "" = none from by decide]
        · simp only [he, if_false]
          cases hpa : jsParseIntAuto s with
          | none => simp [hpa]
          | some n =>
              simp only [decide_eq_true_eq, hmax]
              constructor
              · intro hn
                exact ⟨s, n, rfl, hpa, hn⟩
              · rintro ⟨s2, n2, hs2, hn2, hgt⟩
                obtain rfl : s = s2 := Option.some.inj hs2
                rw [hpa] at hn2
                have := Option.some.inj hn2
                omega
  · intro hm hk hbig
    unfold handleFetch
    simp [hm, hk, hbig]
  · intro hcl
    unfold sizeTooLarge
    rw [hcl]
  · intro s hcl hpa
    unfold sizeTooLarge
    rw [hcl]
    by_cases he : s = ""
    · simp [he]
    · simp [he, hpa]
  · intro s hcl hpa
    unfold sizeTooLarge
    rw [hcl]
    by_cases he : s = ""
    · simp [he]
    · simp [he, hpa, hmax]

/-- Witness for C10: a declared 10485761 yields 413; exactly 10485760, a
non-numeric value and an absent header all pass the gate. -/
theorem C10_size_gate_witness :
    handleFetch mpNone okUpstream sampleEnv 0 reqBig =
        jsonError "Request too large" 413 ∧
      sizeTooLarge (headersWithCL "10485760") = false ∧
      sizeTooLarge (headersWithCL "abc") = false ∧
      sizeTooLarge sampleHeaders = false := by
  refine ⟨?_, ?_, ?_, ?_⟩
  · exact (C10_size_gate mpNone okUpstream sampleEnv 0 reqBig).2.1
      rfl (by decide) (by decide)
  · exact (C10_size_gate mpNone okUpstream sampleEnv 0
      ⟨"POST", "/chat", headersWithCL "10485760", []⟩).2.2.2.2 "10485760"
      rfl (by decide)
  · exact (C10_size_gate mpNone okUpstream sampleEnv 0
      ⟨"POST", "/chat", headersWithCL "abc", []⟩).2.2.2.1 "abc"
      rfl (by decide)
  · exact (C10_size_gate mpNone okUpstream sampleEnv 0
      ⟨"POST", "/chat", sampleHeaders, []⟩).2.2.1 (by decide)

/-- C2: the relay applies its gates strictly in the order method,
credential, size, route, content-type, signature; each failure is
answered immediately with its documented status and body, the response
is then independent of the multipart parser and of the upstream (no
later check or forwarding runs), and every verifier failure — including
a missing X-Murmur-Nonce header — surfaces as the generic 401
Unauthorized body, never the internal reason. -/
theorem C2_gate_order (mp mp2 : MultipartParser)
    (f g : UpstreamRequest → Except Unit UpstreamResponse) (env : Env)
    (now : Int) (req : WorkerRequest) :
    (req.method ≠ "OPTIONS" → req.method ≠ "POST" →
      handleFetch mp f env now req = jsonError "Method not allowed" 405 ∧
      handleFetch mp f env now req = handleFetch mp2 g env now req) ∧
    (req.method = "POST" → env.GROQ_API_KEY = "" →
      handleFetch mp f env now req = jsonError "Proxy not configured" 500 ∧
      handleFetch mp f env now req = handleFetch mp2 g env now req) ∧
    (req.method = "POST" → env.GROQ_API_KEY ≠ "" →
      sizeTooLarge req.headers = true →
      handleFetch mp f env now req = jsonError "Request too large" 413 ∧
      handleFetch mp f env now req = handleFetch mp2 g env now req) ∧
    (req.method = "POST" → env.GROQ_API_KEY ≠ "" →
      sizeTooLarge req.headers = false → resolveEndpoint req.path = none →
      handleFetch mp f env now req = jsonError "Unknown endpoint" 404 ∧
      handleFetch mp f env now req = handleFetch mp2 g env now req) ∧
    (∀ targetUrl e, req.method = "POST" → env.GROQ_API_KEY ≠ "" →
      sizeTooLarge req.headers = false →
      resolveEndpoint req.path = some targetUrl →
      validateContentType (req.headers "Content-Type") req.path =
        .invalid e →
      handleFetch mp f env now req = jsonError e 400 ∧
      handleFetch mp f env now req = handleFetch mp2 g env now req) ∧
    (∀ targetUrl e, req.method = "POST" → env.GROQ_API_KEY ≠ "" →
      sizeTooLarge req.headers = false →
      resolveEndpoint req.path = some targetUrl →
      validateContentType (req.headers "Content-Type") req.path = .valid →
      verifyHmacSignature mp now req.headers req.body env
        (requestIsMultipart (req.headers "Content-Type")) = .invalid e →
      handleFetch mp f env now req = jsonError "Unauthorized" 401 ∧
      handleFetch mp f env now req = handleFetch mp g env now req) ∧
    (∀ targetUrl, req.method = "POST" → env.GROQ_API_KEY ≠ "" →
      sizeTooLarge req.headers = false →
      resolveEndpoint req.path = some targetUrl →
      validateContentType (req.headers "Content-Type") req.path = .valid →
      req.headers "X-Murmur-Nonce" = none →
      handleFetch mp f env now req = jsonError "Unauthorized" 401 ∧
      handleFetch mp f env now req = handleFetch mp2 g env now req) := by
  refine ⟨?_, ?_, ?_, ?_, ?_, ?_, ?_⟩
  · intro hO hP
    have e : ∀ (mpx : MultipartParser) fx,
        handleFetch mpx fx env now req = jsonError "Method not allowed" 405 := by
      intro mpx fx
      unfold handleFetch
      rw [if_neg hO, if_pos hP]
    exact ⟨e mp f, (e mp f).trans (e mp2 g).symm⟩
  · intro hm hk
    have e : ∀ (mpx : MultipartParser) fx,
        handleFetch mpx fx env now req =
          jsonError "Proxy not configured" 500 := by
      intro mpx fx
      unfold handleFetch
      simp [hm, hk]
    exact ⟨e mp f, (e mp f).trans (e mp2 g).symm⟩
  · intro hm hk hbig
    have e : ∀ (mpx : MultipartParser) fx,
        handleFetch mpx fx env now req =
          jsonError "Request too large" 413 := by
      intro mpx fx
      unfold handleFetch
      simp [hm, hk, hbig]
    exact ⟨e mp f, (e mp f).trans (e mp2 g).symm⟩
  · intro hm hk hs hr
    have e : ∀ (mpx : MultipartParser) fx,
        handleFetch mpx fx env now req =
          jsonError "Unknown endpoint" 404 := by
      intro mpx fx
      unfold handleFetch
      simp [hm, hk, hs, hr]
    exact ⟨e mp f, (e mp f).trans (e mp2 g).symm⟩
  · intro targetUrl e0 hm hk hs hr hv
    have e : ∀ (mpx : MultipartParser) fx,
        handleFetch mpx fx env now req = jsonError e0 400 := by
      intro mpx fx
      unfold handleFetch
      simp [hm, hk, hs, hr, hv]
    exact ⟨e mp f, (e mp f).trans (e mp2 g).symm⟩
  · intro targetUrl e0 hm hk hs hr hv hsig
    have e : ∀ fx, handleFetch mp fx env now req =
        jsonError "Unauthorized" 401 := by
      intro fx
      unfold handleFetch
      simp [hm, hk, hs, hr, hv, hsig]
    exact ⟨e f, (e f).trans (e g).symm⟩
  · intro targetUrl hm hk hs hr hv hnon
    have e : ∀ (mpx : MultipartParser) fx,
        handleFetch mpx fx env now req = jsonError "Unauthorized" 401 := by
      intro mpx fx
      have hsig := verify_missing_header mpx now req.headers req.body env
        (requestIsMultipart (req.headers "Content-Type"))
        (Or.inr (Or.inl (by simp [truthy, hnon])))
      unfold handleFetch
      simp [hm, hk, hs, hr, hv, hsig]
    exact ⟨e mp f, (e mp f).trans (e mp2 g).symm⟩

/-- Witness for C2: a GET request is answered 405, and a request missing
only the nonce header is answered with the generic 401 Unauthorized. -/
theorem C2_gate_order_witness :
    handleFetch mpNone okUpstream sampleEnv 0 reqGET =
        jsonError "Method not allowed" 405 ∧
      handleFetch mpNone okUpstream sampleEnv 0 reqNoNonce =
        jsonError "Unauthorized" 401 := by
  constructor
  · exact ((C2_gate_order mpNone mpNone okUpstream okUpstream sampleEnv 0
      reqGET).1 (by decide) (by decide)).1
  · exact ((C2_gate_order mpNone mpNone okUpstream okUpstream sampleEnv 0
      reqNoNonce).2.2.2.2.2.2 groqEndpointChat rfl (by decide) (by decide)
      (by decide) (by decide) (by decide)).1
